import Mathlib

/-!
Shallow embedding of the skip-marker core of the tVLCplayer repository:
the skip resolution effect of `src/components/VideoPlayer.tsx`, the
community marker aggregator of `src/services/communitySkipService.ts`,
and the Trakt scrobble hook (`useTrakt`).  Times are modelled as exact
rationals (seconds), timestamps as integers (milliseconds).
-/

namespace TVLC

/-- SkipType from src/types/index.ts. -/
inductive SkipType where
  | intro
  | credits
  | recap
  | preview
deriving DecidableEq, Repr

/-- Source tag of a marker, from src/types/index.ts. -/
inductive MarkerSource where
  | chapter
  | fingerprint
  | manual
deriving DecidableEq, Repr

/-- SkipMarker from src/types/index.ts. -/
structure SkipMarker where
  type : SkipType
  startTime : ℚ
  endTime : ℚ
  source : MarkerSource
deriving DecidableEq, Repr

/-- SkipSettings from src/types/index.ts. -/
structure SkipSettings where
  enabledChapterSkip : Bool
  enabledAudioSkip : Bool
  enabledCommunitySkip : Bool
  enabledManualSkip : Bool
  autoSkipEnabled : Bool
  skipFadeTimeMs : ℚ
  globalIntroSkipSeconds : ℚ
  globalCreditsSkipSeconds : ℚ
deriving DecidableEq, Repr

/-! ### Skip resolution engine (VideoPlayer.tsx, active-marker effect, lines 174-224) -/

/-- Inputs of one resolution tick: the dependencies of the active-marker
effect in VideoPlayer.tsx. -/
structure ResolutionInputs where
  position : ℚ
  duration : ℚ
  skipSettings : SkipSettings
  communitySkipMarkers : List SkipMarker
  manualIntroSkip : ℚ
  manualCreditsSkip : ℚ

/-- The per-marker community match of the for-loop in VideoPlayer.tsx lines
184-193: an intro marker matches when `startTime <= position < endTime`, a
credits marker when `startTime - 10 <= position < endTime`. -/
def communityMatch (position : ℚ) (m : SkipMarker) : Bool :=
  decide ((m.type = SkipType.intro ∧ m.startTime ≤ position ∧ position < m.endTime) ∨
    (m.type = SkipType.credits ∧ m.startTime - 10 ≤ position ∧ position < m.endTime))

/-- Outcome of the community branch (Priority 1, lines 183-194): guarded by
the community toggle and a non-empty list, the loop returns the first
matching marker. -/
def communityResult (inp : ResolutionInputs) : Option SkipMarker :=
  if inp.skipSettings.enabledCommunitySkip = true ∧ inp.communitySkipMarkers ≠ [] then
    inp.communitySkipMarkers.find? (communityMatch inp.position)
  else
    none

/-- Optional-chaining test `activeSkipMarker?.type === t`. -/
def prevTypeIs (prev : Option SkipMarker) (t : SkipType) : Bool :=
  match prev with
  | some m => decide (m.type = t)
  | none => false

/-- One tick of the active-marker resolution effect (VideoPlayer.tsx lines
174-224), as a function from the inputs and the previous active marker to
the new active marker.  Branches where the effect does not call
`setActiveSkipMarker` leave the previous value in place. -/
def resolveActiveMarker (inp : ResolutionInputs) (prev : Option SkipMarker) :
    Option SkipMarker :=
  if inp.duration = 0 then none
  else
    match communityResult inp with
    | some m => some m
    | none =>
      if inp.skipSettings.enabledManualSkip = false then none
      else if 0 < inp.manualIntroSkip ∧ inp.position < inp.manualIntroSkip then
        some ⟨SkipType.intro, 0, inp.manualIntroSkip, MarkerSource.manual⟩
      else if 0 < inp.manualCreditsSkip ∧ 0 < inp.duration then
        let creditsStart := inp.duration - inp.manualCreditsSkip
        if creditsStart - 10 ≤ inp.position ∧ inp.position < inp.duration - 5 then
          some ⟨SkipType.credits, creditsStart, inp.duration, MarkerSource.manual⟩
        else if prevTypeIs prev SkipType.credits then none
        else prev
      else if prevTypeIs prev SkipType.intro then none
      else prev

/-- Skip settings with only the community toggle on (spec boundary tests of
the community activation windows). -/
def communityOnlySettings : SkipSettings :=
  { enabledChapterSkip := false
    enabledAudioSkip := false
    enabledCommunitySkip := true
    enabledManualSkip := false
    autoSkipEnabled := false
    skipFadeTimeMs := 0
    globalIntroSkipSeconds := 0
    globalCreditsSkipSeconds := 0 }

/-- Skip settings with only the manual toggle on (spec manual fallback
scenario: enabledManualSkip true, enabledCommunitySkip false). -/
def manualOnlySettings : SkipSettings :=
  { enabledChapterSkip := false
    enabledAudioSkip := false
    enabledCommunitySkip := false
    enabledManualSkip := true
    autoSkipEnabled := false
    skipFadeTimeMs := 0
    globalIntroSkipSeconds := 0
    globalCreditsSkipSeconds := 0 }

/-- Resolution inputs with a single community marker and manual fallback
disabled. -/
def singleMarkerInputs (m : SkipMarker) (p dur : ℚ) : ResolutionInputs :=
  { position := p
    duration := dur
    skipSettings := communityOnlySettings
    communitySkipMarkers := [m]
    manualIntroSkip := 0
    manualCreditsSkip := 0 }

/-- Resolution inputs with no community markers and manual fallback
enabled. -/
def manualInputs (p dur mi mc : ℚ) : ResolutionInputs :=
  { position := p
    duration := dur
    skipSettings := manualOnlySettings
    communitySkipMarkers := []
    manualIntroSkip := mi
    manualCreditsSkip := mc }

/-! ### Marker aggregator (communitySkipService.ts) -/

/-- The duplicate test of communitySkipService.ts lines 60-62: some
already-kept marker has the same type and a start time within 2 seconds. -/
def closeExists (acc : List SkipMarker) (marker : SkipMarker) : Bool :=
  acc.any fun m => decide (m.type = marker.type ∧ |m.startTime - marker.startTime| < 2)

/-- The merge loop of communitySkipService.ts lines 55-66: start from the
first provider's markers; append each second-provider marker unless a kept
marker of the same type starts within 2 seconds of it. -/
def mergeMarkers (first second : List SkipMarker) : List SkipMarker :=
  second.foldl (fun acc marker => if closeExists acc marker then acc else acc ++ [marker])
    first

/-- A provider window, with both endpoints optional as in the TS response
interfaces (`intro?: { start; end }`). -/
structure ProviderWindow where
  startField : Option ℚ
  endField : Option ℚ
deriving DecidableEq, Repr

/-- One clause of convertToSkipMarkers: a marker is emitted iff both the
start and the end of the window are present. -/
def windowMarker (t : SkipType) (w : Option ProviderWindow) : List SkipMarker :=
  match w with
  | some ⟨some s, some e⟩ => [⟨t, s, e, MarkerSource.fingerprint⟩]
  | _ => []

/-- convertToSkipMarkers (communitySkipService.ts lines 133-158): intro
window becomes an intro marker, outro window a credits marker, both tagged
fingerprint. -/
def convertToSkipMarkers (intro outro : Option ProviderWindow) : List SkipMarker :=
  windowMarker SkipType.intro intro ++ windowMarker SkipType.credits outro

/-- Possible behaviours of one provider request. -/
inductive ProviderBehavior where
  | timeout
  | httpError (status : ℕ)
  | malformedJson
  | throwsError
  | ok (intro outro : Option ProviderWindow)
deriving Repr

/-- The raw fetch-and-parse stage of a provider call, before the provider
function's own catch: timeouts, thrown exceptions and malformed JSON raise;
a non-2xx response returns `[]` (the `if (!response.ok) return []` guard);
a good response is converted. -/
def providerFetchRaw (b : ProviderBehavior) : Except String (List SkipMarker) :=
  match b with
  | ProviderBehavior.timeout => Except.error "timeout"
  | ProviderBehavior.throwsError => Except.error "exception"
  | ProviderBehavior.malformedJson => Except.error "malformed json"
  | ProviderBehavior.httpError _ => Except.ok []
  | ProviderBehavior.ok intro outro => Except.ok (convertToSkipMarkers intro outro)

/-- The catch clause wrapping each provider call: any raised error becomes
an empty contribution. -/
def handleProvider (raw : Except String (List SkipMarker)) : List SkipMarker :=
  match raw with
  | Except.ok l => l
  | Except.error _ => []

/-- getIntroHaterMarkers (communitySkipService.ts lines 79-104). -/
def getIntroHaterMarkers (b : ProviderBehavior) : List SkipMarker :=
  handleProvider (providerFetchRaw b)

/-- getStremioSkipMarkers (communitySkipService.ts lines 106-131), the same
guarded fetch shape as the IntroHater provider. -/
def getStremioSkipMarkers (b : ProviderBehavior) : List SkipMarker :=
  handleProvider (providerFetchRaw b)

/-- A behaviour that is a provider error in the sense of the spec: timeout,
non-2xx response, thrown exception, or malformed JSON. -/
def isProviderError (b : ProviderBehavior) : Bool :=
  match b with
  | ProviderBehavior.ok _ _ => false
  | _ => true

/-- Mutable state of the CommunitySkipService singleton: the marker cache
and the last-fetch-time map. -/
structure ServiceState where
  cache : String → Option (List SkipMarker)
  lastFetchTime : String → Option ℤ

/-- cacheTTL = 24 hours in milliseconds. -/
def cacheTTL : ℤ := 24 * 60 * 60 * 1000

/-- Result of one getSkipMarkersForEpisode call: the returned markers, the
service state afterwards, and whether the providers were invoked. -/
structure FetchOutcome where
  markers : List SkipMarker
  state : ServiceState
  invokedProviders : Bool

/-- The fetch-merge-cache path of getSkipMarkersForEpisode (lines 48-72):
both providers are queried, the results merged, and the cache entry and
fetch time for the key fully replaced. -/
def fetchAndCache (st : ServiceState) (now : ℤ) (cacheKey : String)
    (b1 b2 : ProviderBehavior) : FetchOutcome :=
  let allMarkers := mergeMarkers (getIntroHaterMarkers b1) (getStremioSkipMarkers b2)
  { markers := allMarkers
    state :=
      { cache := fun k => if k = cacheKey then some allMarkers else st.cache k
        lastFetchTime := fun k => if k = cacheKey then some now else st.lastFetchTime k }
    invokedProviders := true }

/-- getSkipMarkersForEpisode (communitySkipService.ts lines 35-77): the
guard `cached && lastFetch && Date.now() - lastFetch < this.cacheTTL`
returns the cached list verbatim, otherwise both providers are fetched and
the entry replaced.  JS truthiness: `cached` is an array and arrays are
always truthy, but `lastFetch` is a number and the number 0 is falsy, so a
stored fetch time of 0 fails the guard and forces a refetch. -/
def getSkipMarkersForEpisode (st : ServiceState) (now : ℤ) (cacheKey : String)
    (b1 b2 : ProviderBehavior) : FetchOutcome :=
  match st.cache cacheKey, st.lastFetchTime cacheKey with
  | some cached, some lastFetch =>
    if ¬ lastFetch = 0 ∧ now - lastFetch < cacheTTL then
      { markers := cached, state := st, invokedProviders := false }
    else fetchAndCache st now cacheKey b1 b2
  | _, _ => fetchAndCache st now cacheKey b1 b2

/-- getSkipMarkersForEpisode with its exception channel made explicit: the
outer try/catch of lines 48-76 maps any raised error to an empty list, so
the call itself never rejects.  The cache guard carries the same JS
truthiness test on the stored fetch time as getSkipMarkersForEpisode. -/
def getSkipMarkersForEpisodeE (st : ServiceState) (now : ℤ) (cacheKey : String)
    (b1 b2 : ProviderBehavior) : Except String FetchOutcome :=
  match st.cache cacheKey, st.lastFetchTime cacheKey with
  | some cached, some lastFetch =>
    if ¬ lastFetch = 0 ∧ now - lastFetch < cacheTTL then
      Except.ok { markers := cached, state := st, invokedProviders := false }
    else
      match Except.ok (fetchAndCache st now cacheKey b1 b2) with
      | Except.ok r => Except.ok r
      | Except.error (_ : String) =>
        Except.ok { markers := [], state := st, invokedProviders := true }
  | _, _ =>
    match Except.ok (fetchAndCache st now cacheKey b1 b2) with
    | Except.ok r => Except.ok r
    | Except.error (_ : String) =>
      Except.ok { markers := [], state := st, invokedProviders := true }

/-! ### Player state, skip execution and auto-skip countdown (VideoPlayer.tsx) -/

/-- The pieces of player/component state touched or framed by handleSkip. -/
structure PlayerState where
  currentTime : ℚ
  playbackRate : ℚ
  playing : Bool
  activeSkipMarker : Option SkipMarker
  communitySkipMarkers : List SkipMarker
  manualIntroSkip : ℚ
  manualCreditsSkip : ℚ
  skipSettings : SkipSettings

/-- handleSkip (VideoPlayer.tsx lines 254-259): with an active marker, seek
to its end time and clear it; otherwise do nothing. -/
def handleSkip (s : PlayerState) : PlayerState :=
  match s.activeSkipMarker with
  | some m => { s with currentTime := m.endTime, activeSkipMarker := none }
  | none => s

/-- State of the auto-skip countdown effect (VideoPlayer.tsx lines
226-252): the closure variable `countdown`, the displayed
`autoSkipCountdown`, whether the interval is armed, and how many times the
skip action has fired. -/
structure AutoSkipState where
  player : PlayerState
  countdown : ℤ
  autoSkipCountdown : Option ℤ
  intervalActive : Bool
  skipCount : ℕ

/-- Entry of the countdown effect: with an active marker and auto-skip
enabled, arm the interval with countdown 3; otherwise show no countdown. -/
def startAutoSkip (p : PlayerState) : AutoSkipState :=
  if p.activeSkipMarker.isSome = true ∧ p.skipSettings.autoSkipEnabled = true then
    { player := p
      countdown := 3
      autoSkipCountdown := some 3
      intervalActive := true
      skipCount := 0 }
  else
    { player := p
      countdown := 0
      autoSkipCountdown := none
      intervalActive := false
      skipCount := 0 }

/-- One one-second interval tick (lines 231-242): decrement; at zero or
below perform the skip, hide the countdown and clear the interval, else
display the decremented value. -/
def autoSkipTick (s : AutoSkipState) : AutoSkipState :=
  if s.intervalActive = true then
    let c := s.countdown - 1
    if c ≤ 0 then
      { s with
        player := handleSkip s.player
        countdown := c
        autoSkipCountdown := none
        intervalActive := false
        skipCount := s.skipCount + 1 }
    else
      { s with countdown := c, autoSkipCountdown := some c }
  else s

/-! ### Trakt scrobble hook (useTrakt) -/

/-- The per-session refs of useTrakt. -/
structure TraktSession where
  lastProgress : ℚ
  hasScrobbledStart : Bool
  hasScrobbled80 : Bool
  isPlaying : Bool
deriving DecidableEq, Repr

/-- The progress clamp of createScrobbleData: `Math.min(100, Math.max(0, progress))`. -/
def clampProgress (p : ℚ) : ℚ := min 100 (max 0 p)

/-- updateProgress (useTrakt lines 79-97): compute the percentage, remember
it, and the first time it reaches 80 emit one stop-semantics completion
scrobble (returned as `some payload`) and latch the flag. -/
def updateProgress (token : Bool) (s : TraktSession) (currentTime duration : ℚ) :
    TraktSession × Option ℚ :=
  if token = false ∨ duration = 0 then (s, none)
  else if 80 ≤ currentTime / duration * 100 ∧ s.hasScrobbled80 = false then
    ({ s with lastProgress := currentTime / duration * 100, hasScrobbled80 := true },
      some (clampProgress (currentTime / duration * 100)))
  else ({ s with lastProgress := currentTime / duration * 100 }, none)

/-- scrobbleStop (useTrakt lines 64-77): gated on the token, emits a real
stop scrobble and drops the remote playing flag. -/
def scrobbleStop (token : Bool) (s : TraktSession) (progress : ℚ) :
    TraktSession × Option ℚ :=
  if token = false then (s, none)
  else ({ s with isPlaying := false }, some (clampProgress progress))

/-- resetScrobbleState (useTrakt lines 23-27). -/
def resetScrobbleState (s : TraktSession) : TraktSession :=
  { s with hasScrobbledStart := false, hasScrobbled80 := false, lastProgress := 0 }

/-- Events a session processes: position samples and explicit stop calls. -/
inductive TraktEvent where
  | progressSample (currentTime duration : ℚ)
  | stopCall (progress : ℚ)

/-- One event step; the second component counts completion reports fired by
this step (the 80 percent branch of updateProgress). -/
def traktStep (token : Bool) (s : TraktSession) (e : TraktEvent) : TraktSession × ℕ :=
  match e with
  | TraktEvent.progressSample t d =>
    let r := updateProgress token s t d
    (r.1, if r.2.isSome then 1 else 0)
  | TraktEvent.stopCall p => ((scrobbleStop token s p).1, 0)

/-- Run a session over an event list, counting completion reports. -/
def runTrakt (token : Bool) (s : TraktSession) : List TraktEvent → TraktSession × ℕ
  | [] => (s, 0)
  | e :: rest =>
    let r := traktStep token s e
    let rest' := runTrakt token r.1 rest
    (rest'.1, r.2 + rest'.2)

/-! ### Helper lemmas -/

lemma exists_find?_eq_some {α : Type} {p : α → Bool} {l : List α} {x : α}
    (hx : x ∈ l) (hpx : p x = true) : ∃ a, l.find? p = some a := by
  induction l with
  | nil => cases hx
  | cons y ys ih =>
    cases hy : p y with
    | true => exact ⟨y, List.find?_cons_of_pos ys hy⟩
    | false =>
      rw [List.find?_cons_of_neg ys (by simp [hy])]
      rcases List.mem_cons.1 hx with rfl | hmem
      · rw [hy] at hpx; cases hpx
      · exact ih hmem

lemma find?_first {α : Type} {p : α → Bool} :
    ∀ {l : List α} {a : α}, l.find? p = some a →
      p a = true ∧ ∃ l1 l2, l = l1 ++ a :: l2 ∧ ∀ x ∈ l1, p x = false := by
  intro l
  induction l with
  | nil => intro a h; cases h
  | cons y ys ih =>
    intro a h
    cases hy : p y with
    | true =>
      rw [List.find?_cons_of_pos ys hy] at h
      cases h
      exact ⟨hy, [], ys, rfl, by intro x hx; cases hx⟩
    | false =>
      rw [List.find?_cons_of_neg ys (by simp [hy])] at h
      obtain ⟨hpa, l1, l2, rfl, hl1⟩ := ih h
      refine ⟨hpa, y :: l1, l2, rfl, ?_⟩
      intro x hx
      rcases List.mem_cons.1 hx with rfl | hmem
      · exact hy
      · exact hl1 x hmem

lemma closeExists_iff (acc : List SkipMarker) (marker : SkipMarker) :
    closeExists acc marker = true ↔
      ∃ m ∈ acc, m.type = marker.type ∧ |m.startTime - marker.startTime| < 2 := by
  simp [closeExists, List.any_eq_true]

lemma mergeMarkers_nil (first : List SkipMarker) : mergeMarkers first [] = first := rfl

lemma mergeMarkers_cons (first : List SkipMarker) (m : SkipMarker)
    (rest : List SkipMarker) :
    mergeMarkers first (m :: rest) =
      if closeExists first m = true then mergeMarkers first rest
      else mergeMarkers (first ++ [m]) rest := by
  by_cases h : closeExists first m = true <;>
    simp [mergeMarkers, List.foldl_cons, h]

lemma mergeMarkers_append_tail :
    ∀ (second first : List SkipMarker), ∃ t, mergeMarkers first second = first ++ t := by
  intro second
  induction second with
  | nil => exact fun first => ⟨[], by simp [mergeMarkers_nil]⟩
  | cons m rest ih =>
    intro first
    rw [mergeMarkers_cons]
    by_cases h : closeExists first m = true
    · rw [if_pos h]; exact ih first
    · rw [if_neg h]
      obtain ⟨t, ht⟩ := ih (first ++ [m])
      exact ⟨m :: t, by rw [ht, List.append_assoc, List.singleton_append]⟩

lemma mergeMarkers_single_iff (acc : List SkipMarker) (marker : SkipMarker) :
    mergeMarkers acc [marker] = acc ++ [marker] ↔
      ¬ ∃ m ∈ acc, m.type = marker.type ∧ |m.startTime - marker.startTime| < 2 := by
  rw [mergeMarkers_cons, ← closeExists_iff]
  by_cases h : closeExists acc marker = true
  · rw [if_pos h, mergeMarkers_nil]
    constructor
    · intro heq
      exfalso
      have : ([marker] : List SkipMarker) = [] := by
        have h2 := heq.symm
        rwa [List.append_right_eq_self] at h2
      cases this
    · intro hno; exact absurd h hno
  · rw [if_neg h, mergeMarkers_nil]
    simp [h]

lemma communityResult_manualInputs (p dur mi mc : ℚ) :
    communityResult (manualInputs p dur mi mc) = none := by
  simp [communityResult, manualInputs, manualOnlySettings]

lemma resolve_manualInputs (p dur mi mc : ℚ) (prev : Option SkipMarker)
    (hdur : dur ≠ 0) :
    resolveActiveMarker (manualInputs p dur mi mc) prev =
      if 0 < mi ∧ p < mi then some ⟨SkipType.intro, 0, mi, MarkerSource.manual⟩
      else if 0 < mc ∧ 0 < dur then
        if dur - mc - 10 ≤ p ∧ p < dur - 5 then
          some ⟨SkipType.credits, dur - mc, dur, MarkerSource.manual⟩
        else if prevTypeIs prev SkipType.credits = true then none
        else prev
      else if prevTypeIs prev SkipType.intro = true then none
      else prev := by
  unfold resolveActiveMarker
  rw [communityResult_manualInputs]
  simp only [manualInputs, manualOnlySettings]
  rw [if_neg hdur]
  rfl

lemma resolve_singleMarkerInputs (m : SkipMarker) (p dur : ℚ)
    (prev : Option SkipMarker) (hdur : dur ≠ 0) :
    resolveActiveMarker (singleMarkerInputs m p dur) prev =
      if communityMatch p m = true then some m else none := by
  unfold resolveActiveMarker
  have hcr : communityResult (singleMarkerInputs m p dur) =
      if communityMatch p m = true then some m else none := by
    unfold communityResult
    rw [if_pos]
    · cases h : communityMatch p m with
      | true => simp [singleMarkerInputs, List.find?, h]
      | false => simp [singleMarkerInputs, List.find?, h]
    · exact ⟨rfl, by simp [singleMarkerInputs]⟩
  rw [hcr]
  simp only [singleMarkerInputs]
  rw [if_neg hdur]
  cases h : communityMatch p m with
  | true => rfl
  | false => rfl

/-! ### C1 -/

/-- C1: on every tick with positive duration, community skip enabled, and
some community marker whose activation window contains the position, the
engine selects the first matching community marker in list order — a member
of the community list, never the manual synthetic marker — for every value
of the manual fallback settings and of the previous active marker. -/
theorem community_priority_first_match (inp : ResolutionInputs)
    (prev : Option SkipMarker) (hdur : 0 < inp.duration)
    (hcs : inp.skipSettings.enabledCommunitySkip = true)
    (hmatch : ∃ x ∈ inp.communitySkipMarkers, communityMatch inp.position x = true) :
    ∃ m, resolveActiveMarker inp prev = some m ∧
      inp.communitySkipMarkers.find? (communityMatch inp.position) = some m ∧
      m ∈ inp.communitySkipMarkers ∧
      ∃ l1 l2, inp.communitySkipMarkers = l1 ++ m :: l2 ∧
        ∀ x ∈ l1, communityMatch inp.position x = false := by
  obtain ⟨x, hxmem, hxp⟩ := hmatch
  have hne : inp.communitySkipMarkers ≠ [] := by
    intro h
    rw [h] at hxmem
    cases hxmem
  obtain ⟨m, hfind⟩ := exists_find?_eq_some hxmem hxp
  obtain ⟨hpm, l1, l2, hdec, hl1⟩ := find?_first hfind
  have hcr : communityResult inp = some m := by
    unfold communityResult
    rw [if_pos ⟨hcs, hne⟩]
    exact hfind
  have hres : resolveActiveMarker inp prev = some m := by
    unfold resolveActiveMarker
    rw [if_neg (ne_of_gt hdur), hcr]
  have hmem : m ∈ inp.communitySkipMarkers := by
    rw [hdec]
    exact List.mem_append_right l1 (List.mem_cons_self m l2)
  exact ⟨m, hres, hfind, hmem, l1, l2, hdec, hl1⟩

/-- C1 witness: a community intro marker covering position 5 wins even
though the manual intro fallback (90 seconds) would also hold there. -/
theorem community_priority_first_match_witness :
    ∃ m, resolveActiveMarker
        { position := 5
          duration := 1200
          skipSettings :=
            { enabledChapterSkip := false
              enabledAudioSkip := false
              enabledCommunitySkip := true
              enabledManualSkip := true
              autoSkipEnabled := false
              skipFadeTimeMs := 0
              globalIntroSkipSeconds := 0
              globalCreditsSkipSeconds := 0 }
          communitySkipMarkers := [⟨SkipType.intro, 0, 30, MarkerSource.fingerprint⟩]
          manualIntroSkip := 90
          manualCreditsSkip := 60 } none = some m ∧
      ([⟨SkipType.intro, 0, 30, MarkerSource.fingerprint⟩] : List SkipMarker).find?
        (communityMatch 5) = some m ∧
      m ∈ ([⟨SkipType.intro, 0, 30, MarkerSource.fingerprint⟩] : List SkipMarker) ∧
      ∃ l1 l2, ([⟨SkipType.intro, 0, 30, MarkerSource.fingerprint⟩] : List SkipMarker) =
          l1 ++ m :: l2 ∧ ∀ x ∈ l1, communityMatch 5 x = false :=
  community_priority_first_match _ none (by decide) rfl
    ⟨⟨SkipType.intro, 0, 30, MarkerSource.fingerprint⟩, by simp, by decide⟩

/-! ### C2 -/

lemma communityMatch_intro_iff {m : SkipMarker} (ht : m.type = SkipType.intro)
    (q : ℚ) : communityMatch q m = true ↔ m.startTime ≤ q ∧ q < m.endTime := by
  simp only [communityMatch, decide_eq_true_eq]
  constructor
  · rintro (⟨-, hw⟩ | ⟨hcr, -⟩)
    · exact hw
    · rw [ht] at hcr; cases hcr
  · intro hw
    exact Or.inl ⟨ht, hw⟩

lemma communityMatch_credits_iff {m : SkipMarker} (ht : m.type = SkipType.credits)
    (q : ℚ) : communityMatch q m = true ↔ m.startTime - 10 ≤ q ∧ q < m.endTime := by
  simp only [communityMatch, decide_eq_true_eq]
  constructor
  · rintro (⟨hcr, -⟩ | ⟨-, hw⟩)
    · rw [ht] at hcr; cases hcr
    · exact hw
  · intro hw
    exact Or.inr ⟨ht, hw⟩

lemma resolve_single_iff (m : SkipMarker) (p dur : ℚ) (prev : Option SkipMarker)
    (hdur : dur ≠ 0) :
    resolveActiveMarker (singleMarkerInputs m p dur) prev = some m ↔
      communityMatch p m = true := by
  rw [resolve_singleMarkerInputs m p dur prev hdur]
  by_cases hc : communityMatch p m = true
  · rw [if_pos hc]
    exact iff_of_true rfl hc
  · rw [if_neg hc]
    exact iff_of_false (fun h => by cases h) hc

/-- C2: with a single community marker, manual fallback off and a loaded
video, an intro marker is reported active exactly on the half-open window
`startTime <= p < endTime` (inactive at exactly `p = endTime`), and a
credits marker exactly on `startTime - 10 <= p < endTime`: active at
exactly `p = startTime - 10`, inactive at `p = startTime - 11`. -/
theorem community_activation_windows (m : SkipMarker) (p dur : ℚ)
    (prev : Option SkipMarker) (hdur : 0 < dur) (hwin : m.startTime < m.endTime) :
    (m.type = SkipType.intro →
      (resolveActiveMarker (singleMarkerInputs m p dur) prev = some m ↔
        m.startTime ≤ p ∧ p < m.endTime)) ∧
    (m.type = SkipType.intro →
      resolveActiveMarker (singleMarkerInputs m m.endTime dur) prev = none) ∧
    (m.type = SkipType.credits →
      (resolveActiveMarker (singleMarkerInputs m p dur) prev = some m ↔
        m.startTime - 10 ≤ p ∧ p < m.endTime)) ∧
    (m.type = SkipType.credits →
      resolveActiveMarker (singleMarkerInputs m (m.startTime - 10) dur) prev = some m) ∧
    (m.type = SkipType.credits →
      resolveActiveMarker (singleMarkerInputs m (m.startTime - 11) dur) prev = none) := by
  have hne : dur ≠ 0 := ne_of_gt hdur
  refine ⟨fun ht => ?_, fun ht => ?_, fun ht => ?_, fun ht => ?_, fun ht => ?_⟩
  · rw [resolve_single_iff m p dur prev hne]
    exact communityMatch_intro_iff ht p
  · rw [resolve_singleMarkerInputs m m.endTime dur prev hne, if_neg]
    intro hc
    rcases (communityMatch_intro_iff ht m.endTime).1 hc with ⟨-, hlt⟩
    exact lt_irrefl _ hlt
  · rw [resolve_single_iff m p dur prev hne]
    exact communityMatch_credits_iff ht p
  · rw [resolve_single_iff m (m.startTime - 10) dur prev hne]
    exact (communityMatch_credits_iff ht (m.startTime - 10)).2
      ⟨le_refl _, by linarith⟩
  · rw [resolve_singleMarkerInputs m (m.startTime - 11) dur prev hne, if_neg]
    intro hc
    rcases (communityMatch_credits_iff ht (m.startTime - 11)).1 hc with ⟨hge, -⟩
    linarith

/-- C2 witness: concrete boundary checks for an intro marker on [10, 30)
and a credits marker on [100, 120) inside a 1200-second video. -/
theorem community_activation_windows_witness :
    resolveActiveMarker
        (singleMarkerInputs ⟨SkipType.intro, 10, 30, MarkerSource.fingerprint⟩ 30 1200)
        none = none ∧
    resolveActiveMarker
        (singleMarkerInputs ⟨SkipType.credits, 100, 120, MarkerSource.fingerprint⟩
          (100 - 10) 1200)
        none = some ⟨SkipType.credits, 100, 120, MarkerSource.fingerprint⟩ ∧
    resolveActiveMarker
        (singleMarkerInputs ⟨SkipType.credits, 100, 120, MarkerSource.fingerprint⟩
          (100 - 11) 1200)
        none = none :=
  ⟨(community_activation_windows ⟨SkipType.intro, 10, 30, MarkerSource.fingerprint⟩
      0 1200 none (by decide) (by decide)).2.1 rfl,
    (community_activation_windows ⟨SkipType.credits, 100, 120, MarkerSource.fingerprint⟩
      0 1200 none (by decide) (by decide)).2.2.2.1 rfl,
    (community_activation_windows ⟨SkipType.credits, 100, 120, MarkerSource.fingerprint⟩
      0 1200 none (by decide) (by decide)).2.2.2.2 rfl⟩

/-! ### C3 -/

/-- C3: on a tick with positive duration where the community branch does
not apply and manual skip is enabled, starting from no active marker the
synthetic intro marker `{intro, 0, mi, manual}` is active exactly when
`0 < mi` and `p < mi`; otherwise the synthetic credits marker
`{credits, dur - mc, dur, manual}` is active exactly when `0 < mc` and
`dur - mc - 10 <= p < dur - 5`; including the four concrete scenario
points of the spec. -/
theorem manual_fallback_windows (p dur mi mc : ℚ) (hdur : 0 < dur) :
    (resolveActiveMarker (manualInputs p dur mi mc) none =
        some ⟨SkipType.intro, 0, mi, MarkerSource.manual⟩ ↔ 0 < mi ∧ p < mi) ∧
    (¬(0 < mi ∧ p < mi) →
      (resolveActiveMarker (manualInputs p dur mi mc) none =
          some ⟨SkipType.credits, dur - mc, dur, MarkerSource.manual⟩ ↔
        0 < mc ∧ dur - mc - 10 ≤ p ∧ p < dur - 5)) ∧
    resolveActiveMarker (manualInputs 0 1200 90 0) none =
      some ⟨SkipType.intro, 0, 90, MarkerSource.manual⟩ ∧
    resolveActiveMarker (manualInputs 90 1200 90 0)
      (some ⟨SkipType.intro, 0, 90, MarkerSource.manual⟩) = none ∧
    resolveActiveMarker (manualInputs 1150 1200 90 60) none =
      some ⟨SkipType.credits, 1140, 1200, MarkerSource.manual⟩ ∧
    resolveActiveMarker (manualInputs 1196 1200 90 60)
      (some ⟨SkipType.credits, 1140, 1200, MarkerSource.manual⟩) = none := by
  have hne : dur ≠ 0 := ne_of_gt hdur
  refine ⟨?_, ?_, ?_, ?_, ?_, ?_⟩
  · rw [resolve_manualInputs p dur mi mc none hne]
    by_cases hi : 0 < mi ∧ p < mi
    · rw [if_pos hi]
      exact iff_of_true rfl hi
    · rw [if_neg hi]
      refine iff_of_false ?_ hi
      by_cases hc : 0 < mc ∧ 0 < dur
      · rw [if_pos hc]
        by_cases hw : dur - mc - 10 ≤ p ∧ p < dur - 5
        · rw [if_pos hw]
          intro h
          cases h
        · rw [if_neg hw]
          simp [prevTypeIs]
      · rw [if_neg hc]
        simp [prevTypeIs]
  · intro hi
    rw [resolve_manualInputs p dur mi mc none hne, if_neg hi]
    by_cases hc : 0 < mc ∧ 0 < dur
    · rw [if_pos hc]
      by_cases hw : dur - mc - 10 ≤ p ∧ p < dur - 5
      · rw [if_pos hw]
        exact iff_of_true rfl ⟨hc.1, hw⟩
      · rw [if_neg hw]
        refine iff_of_false (by simp [prevTypeIs]) ?_
        rintro ⟨-, hw2⟩
        exact hw hw2
    · rw [if_neg hc]
      refine iff_of_false (by simp [prevTypeIs]) ?_
      rintro ⟨hmc, -⟩
      exact hc ⟨hmc, hdur⟩
  · norm_num [resolve_manualInputs 0 1200 90 0 none (by norm_num)]
  · norm_num [resolve_manualInputs 90 1200 90 0
      (some ⟨SkipType.intro, 0, 90, MarkerSource.manual⟩) (by norm_num), prevTypeIs]
  · norm_num [resolve_manualInputs 1150 1200 90 60 none (by norm_num)]
  · norm_num [resolve_manualInputs 1196 1200 90 60
      (some ⟨SkipType.credits, 1140, 1200, MarkerSource.manual⟩) (by norm_num),
      prevTypeIs]

/-- C3 witness: the intro scenario at position 0 of a 1200-second video
with a 90-second manual intro. -/
theorem manual_fallback_windows_witness :
    resolveActiveMarker (manualInputs 0 1200 90 0) none =
      some ⟨SkipType.intro, 0, 90, MarkerSource.manual⟩ :=
  (manual_fallback_windows 0 1200 90 0 (by decide)).2.2.1

/-! ### C4 -/

/-- C4 counterexample: at position 500 of a 1200-second video with manual
skip enabled, manualIntroSeconds 90 and manualCreditsSeconds 60, neither
manual condition holds, yet a previously active intro marker is NOT
cleared: the engine keeps it, contradicting the claim that the stale intro
is cleared for every value of manualCreditsSeconds including positive
ones. -/
theorem stale_intro_clearing_counterexample :
    ¬ (0 < (90 : ℚ) ∧ (500 : ℚ) < 90) ∧
    ¬ ((1200 : ℚ) - 60 - 10 ≤ 500 ∧ (500 : ℚ) < 1200 - 5) ∧
    resolveActiveMarker (manualInputs 500 1200 90 60)
        (some ⟨SkipType.intro, 0, 90, MarkerSource.manual⟩) =
      some ⟨SkipType.intro, 0, 90, MarkerSource.manual⟩ ∧
    resolveActiveMarker (manualInputs 500 1200 90 60)
        (some ⟨SkipType.intro, 0, 90, MarkerSource.manual⟩) ≠ none := by
  refine ⟨by norm_num, by norm_num, ?_, ?_⟩
  · rw [resolve_manualInputs 500 1200 90 60
      (some ⟨SkipType.intro, 0, 90, MarkerSource.manual⟩) (by norm_num)]
    rw [if_neg (by norm_num), if_pos (by norm_num), if_neg (by norm_num),
      if_neg (by simp [prevTypeIs])]
  · rw [resolve_manualInputs 500 1200 90 60
      (some ⟨SkipType.intro, 0, 90, MarkerSource.manual⟩) (by norm_num)]
    rw [if_neg (by norm_num), if_pos (by norm_num), if_neg (by norm_num),
      if_neg (by simp [prevTypeIs])]
    simp

/-- C4 amended: on a tick where manual skip is enabled, no community marker
matches, neither manual condition holds, and manualCreditsSeconds is not
positive, a previously active intro marker is cleared.  (When
manualCreditsSeconds is positive the credits branch is entered instead and
a stale intro marker persists, as the counterexample shows.) -/
theorem stale_intro_cleared_no_credits_branch (inp : ResolutionInputs)
    (prev : Option SkipMarker) (m : SkipMarker)
    (hms : inp.skipSettings.enabledManualSkip = true)
    (hcomm : inp.communitySkipMarkers.find? (communityMatch inp.position) = none)
    (hni : ¬(0 < inp.manualIntroSkip ∧ inp.position < inp.manualIntroSkip))
    (hmc : inp.manualCreditsSkip ≤ 0)
    (hprev : prev = some m) (hintro : m.type = SkipType.intro) :
    resolveActiveMarker inp prev = none := by
  unfold resolveActiveMarker
  by_cases hd : inp.duration = 0
  · rw [if_pos hd]
  · rw [if_neg hd]
    have hcr : communityResult inp = none := by
      unfold communityResult
      by_cases hg : inp.skipSettings.enabledCommunitySkip = true ∧
          inp.communitySkipMarkers ≠ []
      · rw [if_pos hg]
        exact hcomm
      · rw [if_neg hg]
    rw [hcr]
    rw [if_neg (by rw [hms]; intro h; cases h), if_neg hni,
      if_neg (by rintro ⟨h1, -⟩; exact absurd h1 (not_lt.2 hmc)),
      if_pos (by simp [hprev, prevTypeIs, hintro])]

/-- C4 amended witness: a stale intro marker at position 100 with a
90-second manual intro window already passed and no manual credits
configured is cleared. -/
theorem stale_intro_cleared_no_credits_branch_witness :
    resolveActiveMarker (manualInputs 100 1200 90 0)
        (some ⟨SkipType.intro, 0, 90, MarkerSource.manual⟩) = none :=
  stale_intro_cleared_no_credits_branch (manualInputs 100 1200 90 0)
    (some ⟨SkipType.intro, 0, 90, MarkerSource.manual⟩)
    ⟨SkipType.intro, 0, 90, MarkerSource.manual⟩
    rfl rfl (by decide) (by decide) rfl rfl

/-! ### C5 -/

/-- C5: the merged result starts with all of the first provider's markers
in their original order; a second-provider marker is appended iff no
already-kept marker of the same type starts within 2 seconds of it (stated
for the single-step case and as the fold recurrence over the growing kept
list); in particular two intro markers whose starts differ by 1.5 seconds
collapse to the first provider's one, while starts differing by 2.5 seconds
keep both. -/
theorem aggregator_merge_dedup :
    (∀ first second : List SkipMarker, ∃ t, mergeMarkers first second = first ++ t) ∧
    (∀ (acc : List SkipMarker) (marker : SkipMarker) (rest : List SkipMarker),
      mergeMarkers acc (marker :: rest) =
        if closeExists acc marker = true then mergeMarkers acc rest
        else mergeMarkers (acc ++ [marker]) rest) ∧
    (∀ (acc : List SkipMarker) (marker : SkipMarker),
      mergeMarkers acc [marker] = acc ++ [marker] ↔
        ¬ ∃ m ∈ acc, m.type = marker.type ∧ |m.startTime - marker.startTime| < 2) ∧
    mergeMarkers [⟨SkipType.intro, 100, 130, MarkerSource.fingerprint⟩]
        [⟨SkipType.intro, 101.5, 131, MarkerSource.fingerprint⟩] =
      [⟨SkipType.intro, 100, 130, MarkerSource.fingerprint⟩] ∧
    mergeMarkers [⟨SkipType.intro, 100, 130, MarkerSource.fingerprint⟩]
        [⟨SkipType.intro, 102.5, 131, MarkerSource.fingerprint⟩] =
      [⟨SkipType.intro, 100, 130, MarkerSource.fingerprint⟩,
        ⟨SkipType.intro, 102.5, 131, MarkerSource.fingerprint⟩] := by
  refine ⟨fun first second => mergeMarkers_append_tail second first,
    mergeMarkers_cons, mergeMarkers_single_iff, ?_, ?_⟩
  · norm_num [mergeMarkers, closeExists, List.foldl, List.any, abs_lt, le_abs]
  · norm_num [mergeMarkers, closeExists, List.foldl, List.any, abs_lt, le_abs]

/-- C5 witness: instantiate the order-preserving merge shape on the
1.5-second dedup pair. -/
theorem aggregator_merge_dedup_witness :
    ∃ t, mergeMarkers [⟨SkipType.intro, 100, 130, MarkerSource.fingerprint⟩]
        [⟨SkipType.intro, 101.5, 131, MarkerSource.fingerprint⟩] =
      [⟨SkipType.intro, 100, 130, MarkerSource.fingerprint⟩] ++ t :=
  aggregator_merge_dedup.1 [⟨SkipType.intro, 100, 130, MarkerSource.fingerprint⟩]
    [⟨SkipType.intro, 101.5, 131, MarkerSource.fingerprint⟩]

/-! ### C6 -/

/-- C6 counterexample: a cached entry whose stored fetch time is 0 has age
`now - 0` strictly below 24 hours at `now = 86399999`, yet the lookup does
NOT return the cached list verbatim and DOES invoke the providers: the JS
guard `cached && lastFetch && ...` treats the number 0 as falsy, so the
code refetches, contradicting the claim as stated for every cached entry
of age below 24 hours. -/
theorem cache_ttl_zero_timestamp_counterexample :
    ((0 : ℤ) ≤ 86399999 - 0 ∧ (86399999 : ℤ) - 0 < cacheTTL) ∧
    (getSkipMarkersForEpisode
        { cache := fun _ => some [⟨SkipType.intro, 10, 30, MarkerSource.fingerprint⟩]
          lastFetchTime := fun _ => some 0 }
        86399999 "tt1_s01e01" ProviderBehavior.timeout
        ProviderBehavior.timeout).invokedProviders = true ∧
    (getSkipMarkersForEpisode
        { cache := fun _ => some [⟨SkipType.intro, 10, 30, MarkerSource.fingerprint⟩]
          lastFetchTime := fun _ => some 0 }
        86399999 "tt1_s01e01" ProviderBehavior.timeout
        ProviderBehavior.timeout).markers ≠
      [⟨SkipType.intro, 10, 30, MarkerSource.fingerprint⟩] := by
  have hres : getSkipMarkersForEpisode
      { cache := fun _ => some [⟨SkipType.intro, 10, 30, MarkerSource.fingerprint⟩]
        lastFetchTime := fun _ => some 0 }
      86399999 "tt1_s01e01" ProviderBehavior.timeout ProviderBehavior.timeout =
      fetchAndCache
        { cache := fun _ => some [⟨SkipType.intro, 10, 30, MarkerSource.fingerprint⟩]
          lastFetchTime := fun _ => some 0 }
        86399999 "tt1_s01e01" ProviderBehavior.timeout ProviderBehavior.timeout := by
    simp only [getSkipMarkersForEpisode]
    rw [if_neg (by rintro ⟨h0, -⟩; exact h0 trivial)]
  refine ⟨by decide, by rw [hres]; rfl, by rw [hres]; decide⟩

/-- C6 amended: for a cached entry with a truthy (nonzero) stored fetch
time, age below 24 hours returns the cached list verbatim with no provider
requests and an untouched state; once the age reaches or exceeds 24 hours
the lookup invokes the providers and the merged result fully replaces the
cache entry with the current timestamp.  (A stored fetch time of 0 is falsy
in JS and always refetches, as the counterexample shows.) -/
theorem cache_ttl_hard_cap (st : ServiceState) (now : ℤ) (key : String)
    (markers : List SkipMarker) (t : ℤ) (b1 b2 : ProviderBehavior)
    (hc : st.cache key = some markers) (hl : st.lastFetchTime key = some t) :
    (¬ t = 0 → now - t < cacheTTL →
      getSkipMarkersForEpisode st now key b1 b2 =
        { markers := markers, state := st, invokedProviders := false }) ∧
    (cacheTTL ≤ now - t →
      (getSkipMarkersForEpisode st now key b1 b2).markers =
          mergeMarkers (getIntroHaterMarkers b1) (getStremioSkipMarkers b2) ∧
        (getSkipMarkersForEpisode st now key b1 b2).state.cache key =
          some (mergeMarkers (getIntroHaterMarkers b1) (getStremioSkipMarkers b2)) ∧
        (getSkipMarkersForEpisode st now key b1 b2).state.lastFetchTime key =
          some now ∧
        (getSkipMarkersForEpisode st now key b1 b2).invokedProviders = true) := by
  have hres : getSkipMarkersForEpisode st now key b1 b2 =
      if ¬ t = 0 ∧ now - t < cacheTTL then
        { markers := markers, state := st, invokedProviders := false }
      else fetchAndCache st now key b1 b2 := by
    unfold getSkipMarkersForEpisode
    rw [hc, hl]
  constructor
  · intro ht hfresh
    rw [hres, if_pos ⟨ht, hfresh⟩]
  · intro hstale
    rw [hres, if_neg (by rintro ⟨-, h2⟩; exact absurd h2 (not_lt.2 hstale))]
    refine ⟨rfl, ?_, ?_, rfl⟩
    · show (if key = key then _ else _) = _
      rw [if_pos rfl]
    · show (if key = key then _ else _) = _
      rw [if_pos rfl]

/-- C6 witness: a cache entry with a nonzero fetch time 1 holding an empty
list is returned verbatim one millisecond before its 24-hour mark, and
replaced (even by an empty merge of two failing providers) exactly at the
24-hour mark. -/
theorem cache_ttl_hard_cap_witness :
    getSkipMarkersForEpisode
        { cache := fun _ => some [], lastFetchTime := fun _ => some 1 }
        86400000 "tt1_s01e01" ProviderBehavior.timeout ProviderBehavior.timeout =
      { markers := []
        state := { cache := fun _ => some [], lastFetchTime := fun _ => some 1 }
        invokedProviders := false } ∧
    (getSkipMarkersForEpisode
        { cache := fun _ => some [], lastFetchTime := fun _ => some 1 }
        86400001 "tt1_s01e01" ProviderBehavior.timeout
        ProviderBehavior.timeout).state.lastFetchTime "tt1_s01e01" =
      some 86400001 ∧
    (getSkipMarkersForEpisode
        { cache := fun _ => some [], lastFetchTime := fun _ => some 1 }
        86400001 "tt1_s01e01" ProviderBehavior.timeout
        ProviderBehavior.timeout).invokedProviders = true :=
  ⟨(cache_ttl_hard_cap _ 86400000 "tt1_s01e01" [] 1 _ _ rfl rfl).1 (by decide)
      (by decide),
    ((cache_ttl_hard_cap _ 86400001 "tt1_s01e01" [] 1 _ _ rfl rfl).2
      (by decide)).2.2.1,
    ((cache_ttl_hard_cap _ 86400001 "tt1_s01e01" [] 1 _ _ rfl rfl).2
      (by decide)).2.2.2⟩

/-! ### C7 -/

lemma windowMarker_cases (t : SkipType) (w : Option ProviderWindow) :
    windowMarker t w = [] ∨
      ∃ s e, windowMarker t w = [⟨t, s, e, MarkerSource.fingerprint⟩] := by
  rcases w with _ | ⟨sf, ef⟩
  · exact Or.inl rfl
  · rcases sf with _ | s <;> rcases ef with _ | e
    · exact Or.inl rfl
    · exact Or.inl rfl
    · exact Or.inl rfl
    · exact Or.inr ⟨s, e, rfl⟩

lemma mergeMarkers_nil_convert (i o : Option ProviderWindow) :
    mergeMarkers [] (convertToSkipMarkers i o) = convertToSkipMarkers i o := by
  rcases windowMarker_cases SkipType.intro i with hi | ⟨si, ei, hi⟩ <;>
    rcases windowMarker_cases SkipType.credits o with ho | ⟨so, eo, ho⟩ <;>
      simp [convertToSkipMarkers, hi, ho, mergeMarkers_cons, mergeMarkers_nil,
        closeExists, List.any_cons, List.any_nil]

lemma mergeMarkers_nil_stremio (b : ProviderBehavior) :
    mergeMarkers [] (getStremioSkipMarkers b) = getStremioSkipMarkers b := by
  cases b with
  | ok i o =>
    show mergeMarkers [] (convertToSkipMarkers i o) = convertToSkipMarkers i o
    exact mergeMarkers_nil_convert i o
  | timeout => rfl
  | httpError s => rfl
  | malformedJson => rfl
  | throwsError => rfl

lemma providerError_introHater_empty (b : ProviderBehavior)
    (h : isProviderError b = true) : getIntroHaterMarkers b = [] := by
  cases b with
  | ok i o => simp [isProviderError] at h
  | timeout => rfl
  | httpError s => rfl
  | malformedJson => rfl
  | throwsError => rfl

lemma getSkipMarkersForEpisodeE_eq (st : ServiceState) (now : ℤ) (key : String)
    (b1 b2 : ProviderBehavior) :
    getSkipMarkersForEpisodeE st now key b1 b2 =
      Except.ok (getSkipMarkersForEpisode st now key b1 b2) := by
  unfold getSkipMarkersForEpisodeE getSkipMarkersForEpisode
  rcases hc : st.cache key with _ | cached <;>
    rcases hl : st.lastFetchTime key with _ | lf <;>
      first
        | rfl
        | (split <;> first | rfl | (split <;> rfl))

lemma getSkipMarkersForEpisode_miss (st : ServiceState) (now : ℤ) (key : String)
    (b1 b2 : ProviderBehavior) (hmiss : st.lastFetchTime key = none) :
    getSkipMarkersForEpisode st now key b1 b2 = fetchAndCache st now key b1 b2 := by
  unfold getSkipMarkersForEpisode
  rcases hc : st.cache key with _ | cached <;> rw [hmiss]

/-- C7: the aggregator call never rejects — for every provider behaviour it
returns an ordinary result; each provider error (timeout, non-2xx, thrown
exception, malformed JSON) contributes an empty list from that provider
without affecting the other provider's markers, and when both providers
fail a fresh lookup returns the empty sequence. -/
theorem aggregator_error_containment (st : ServiceState) (now : ℤ) (key : String)
    (b1 b2 : ProviderBehavior) :
    (∃ r, getSkipMarkersForEpisodeE st now key b1 b2 = Except.ok r) ∧
    (isProviderError b1 = true → getIntroHaterMarkers b1 = []) ∧
    (isProviderError b2 = true → getStremioSkipMarkers b2 = []) ∧
    (st.lastFetchTime key = none → isProviderError b1 = true →
      (getSkipMarkersForEpisode st now key b1 b2).markers =
        getStremioSkipMarkers b2) ∧
    (st.lastFetchTime key = none → isProviderError b1 = true →
      isProviderError b2 = true →
      (getSkipMarkersForEpisode st now key b1 b2).markers = []) := by
  have hstremio : ∀ b, getStremioSkipMarkers b = getIntroHaterMarkers b :=
    fun _ => rfl
  refine ⟨⟨_, getSkipMarkersForEpisodeE_eq st now key b1 b2⟩,
    providerError_introHater_empty b1, ?_, ?_, ?_⟩
  · intro h
    rw [hstremio b2]
    exact providerError_introHater_empty b2 h
  · intro hmiss h1
    rw [getSkipMarkersForEpisode_miss st now key b1 b2 hmiss]
    show mergeMarkers (getIntroHaterMarkers b1) (getStremioSkipMarkers b2) = _
    rw [providerError_introHater_empty b1 h1, mergeMarkers_nil_stremio b2]
  · intro hmiss h1 h2
    rw [getSkipMarkersForEpisode_miss st now key b1 b2 hmiss]
    show mergeMarkers (getIntroHaterMarkers b1) (getStremioSkipMarkers b2) = _
    rw [providerError_introHater_empty b1 h1, hstremio b2,
      providerError_introHater_empty b2 h2]
    rfl

/-- C7 witness: with no cached fetch time, a timed-out first provider and a
malformed-JSON second provider, the call answers with the empty list and
does not reject. -/
theorem aggregator_error_containment_witness :
    (∃ r, getSkipMarkersForEpisodeE
        { cache := fun _ => none, lastFetchTime := fun _ => none }
        0 "tt1_s01e01" ProviderBehavior.timeout ProviderBehavior.malformedJson =
      Except.ok r) ∧
    (getSkipMarkersForEpisode
        { cache := fun _ => none, lastFetchTime := fun _ => none }
        0 "tt1_s01e01" ProviderBehavior.timeout
        ProviderBehavior.malformedJson).markers = [] :=
  ⟨(aggregator_error_containment _ 0 "tt1_s01e01" ProviderBehavior.timeout
      ProviderBehavior.malformedJson).1,
    (aggregator_error_containment _ 0 "tt1_s01e01" ProviderBehavior.timeout
      ProviderBehavior.malformedJson).2.2.2.2 rfl rfl rfl⟩

/-! ### C8 -/

lemma autoSkipTick_inactive (s : AutoSkipState) (h : s.intervalActive = false) :
    autoSkipTick s = s := by
  unfold autoSkipTick
  rw [if_neg]
  rw [h]
  intro hcon
  cases hcon

lemma autoSkipTick_iterate_inactive (n : ℕ) (s : AutoSkipState)
    (h : s.intervalActive = false) : autoSkipTick^[n] s = s := by
  induction n with
  | zero => rfl
  | succ k ih =>
    rw [Function.iterate_succ_apply, autoSkipTick_inactive s h, ih]

/-- C8: starting Idle with an active marker and auto-skip enabled, the
countdown shows 3, then 2 after one one-second tick, then 1 after two;
from the third tick on the skip has fired exactly once — the playback
position sits at the marker's end time, the active marker is gone and the
countdown is stopped. -/
theorem auto_skip_countdown (p : PlayerState) (m : SkipMarker)
    (hm : p.activeSkipMarker = some m)
    (ha : p.skipSettings.autoSkipEnabled = true) :
    (startAutoSkip p).autoSkipCountdown = some 3 ∧
    (autoSkipTick^[1] (startAutoSkip p)).autoSkipCountdown = some 2 ∧
    (autoSkipTick^[2] (startAutoSkip p)).autoSkipCountdown = some 1 ∧
    ∀ k, 3 ≤ k →
      (autoSkipTick^[k] (startAutoSkip p)).skipCount = 1 ∧
      (autoSkipTick^[k] (startAutoSkip p)).player.activeSkipMarker = none ∧
      (autoSkipTick^[k] (startAutoSkip p)).player.currentTime = m.endTime ∧
      (autoSkipTick^[k] (startAutoSkip p)).autoSkipCountdown = none ∧
      (autoSkipTick^[k] (startAutoSkip p)).intervalActive = false := by
  have hs0 : startAutoSkip p =
      { player := p, countdown := 3, autoSkipCountdown := some 3,
        intervalActive := true, skipCount := 0 } := by
    unfold startAutoSkip
    rw [if_pos ⟨by rw [hm]; rfl, ha⟩]
  have hs1 : autoSkipTick (startAutoSkip p) =
      { player := p, countdown := 2, autoSkipCountdown := some 2,
        intervalActive := true, skipCount := 0 } := by
    rw [hs0]
    unfold autoSkipTick
    rw [if_pos rfl]
    norm_num
  have hs2 : autoSkipTick^[2] (startAutoSkip p) =
      { player := p, countdown := 1, autoSkipCountdown := some 1,
        intervalActive := true, skipCount := 0 } := by
    rw [Function.iterate_succ_apply, Function.iterate_one, hs1]
    unfold autoSkipTick
    rw [if_pos rfl]
    norm_num
  have hskip : handleSkip p =
      { p with currentTime := m.endTime, activeSkipMarker := none } := by
    unfold handleSkip
    rw [hm]
  have hs3 : autoSkipTick^[3] (startAutoSkip p) =
      { player := { p with currentTime := m.endTime, activeSkipMarker := none },
        countdown := 0, autoSkipCountdown := none,
        intervalActive := false, skipCount := 1 } := by
    have h32 : autoSkipTick^[3] (startAutoSkip p) =
        autoSkipTick (autoSkipTick^[2] (startAutoSkip p)) :=
      Function.iterate_succ_apply' autoSkipTick 2 (startAutoSkip p)
    rw [h32, hs2]
    unfold autoSkipTick
    rw [if_pos rfl]
    norm_num [hskip]
  refine ⟨by rw [hs0], by rw [Function.iterate_one, hs1], by rw [hs2], ?_⟩
  intro k hk
  obtain ⟨j, rfl⟩ := Nat.exists_eq_add_of_le hk
  have hiter : autoSkipTick^[3 + j] (startAutoSkip p) =
      autoSkipTick^[j] (autoSkipTick^[3] (startAutoSkip p)) := by
    rw [Nat.add_comm]
    exact Function.iterate_add_apply autoSkipTick j 3 (startAutoSkip p)
  rw [hiter, hs3, autoSkipTick_iterate_inactive j _ rfl]
  exact ⟨rfl, rfl, rfl, rfl, rfl⟩

/-- C8 witness: a concrete playback state with an active intro marker
ending at 30 seconds and auto-skip on; after three ticks the skip has fired
once and the position is 30. -/
theorem auto_skip_countdown_witness :
    (startAutoSkip
        { currentTime := 0
          playbackRate := 1
          playing := true
          activeSkipMarker := some ⟨SkipType.intro, 10, 30, MarkerSource.fingerprint⟩
          communitySkipMarkers := []
          manualIntroSkip := 0
          manualCreditsSkip := 0
          skipSettings :=
            { enabledChapterSkip := false
              enabledAudioSkip := false
              enabledCommunitySkip := true
              enabledManualSkip := false
              autoSkipEnabled := true
              skipFadeTimeMs := 0
              globalIntroSkipSeconds := 0
              globalCreditsSkipSeconds := 0 } }).autoSkipCountdown = some 3 ∧
    (autoSkipTick^[3] (startAutoSkip
        { currentTime := 0
          playbackRate := 1
          playing := true
          activeSkipMarker := some ⟨SkipType.intro, 10, 30, MarkerSource.fingerprint⟩
          communitySkipMarkers := []
          manualIntroSkip := 0
          manualCreditsSkip := 0
          skipSettings :=
            { enabledChapterSkip := false
              enabledAudioSkip := false
              enabledCommunitySkip := true
              enabledManualSkip := false
              autoSkipEnabled := true
              skipFadeTimeMs := 0
              globalIntroSkipSeconds := 0
              globalCreditsSkipSeconds := 0 } })).skipCount = 1 ∧
    (autoSkipTick^[3] (startAutoSkip
        { currentTime := 0
          playbackRate := 1
          playing := true
          activeSkipMarker := some ⟨SkipType.intro, 10, 30, MarkerSource.fingerprint⟩
          communitySkipMarkers := []
          manualIntroSkip := 0
          manualCreditsSkip := 0
          skipSettings :=
            { enabledChapterSkip := false
              enabledAudioSkip := false
              enabledCommunitySkip := true
              enabledManualSkip := false
              autoSkipEnabled := true
              skipFadeTimeMs := 0
              globalIntroSkipSeconds := 0
              globalCreditsSkipSeconds := 0 } })).player.currentTime = 30 :=
  ⟨(auto_skip_countdown _ ⟨SkipType.intro, 10, 30, MarkerSource.fingerprint⟩
      rfl rfl).1,
    ((auto_skip_countdown _ ⟨SkipType.intro, 10, 30, MarkerSource.fingerprint⟩
      rfl rfl).2.2.2 3 (by decide)).1,
    ((auto_skip_countdown _ ⟨SkipType.intro, 10, 30, MarkerSource.fingerprint⟩
      rfl rfl).2.2.2 3 (by decide)).2.2.1⟩

/-! ### C10 -/

/-- C10: performing a skip with an active marker changes exactly the
playback position (to the marker's end time) and the active marker (to
none), leaving playback rate, play state, community markers, manual
fallback seconds and skip settings unchanged; with no active marker,
handleSkip changes nothing. -/
theorem handleSkip_frame (s : PlayerState) (m : SkipMarker) :
    (s.activeSkipMarker = some m →
      handleSkip s = { s with currentTime := m.endTime, activeSkipMarker := none } ∧
      (handleSkip s).currentTime = m.endTime ∧
      (handleSkip s).activeSkipMarker = none ∧
      (handleSkip s).playbackRate = s.playbackRate ∧
      (handleSkip s).playing = s.playing ∧
      (handleSkip s).communitySkipMarkers = s.communitySkipMarkers ∧
      (handleSkip s).manualIntroSkip = s.manualIntroSkip ∧
      (handleSkip s).manualCreditsSkip = s.manualCreditsSkip ∧
      (handleSkip s).skipSettings = s.skipSettings) ∧
    (s.activeSkipMarker = none → handleSkip s = s) := by
  constructor
  · intro hm
    have h : handleSkip s =
        { s with currentTime := m.endTime, activeSkipMarker := none } := by
      unfold handleSkip
      rw [hm]
    rw [h]
    exact ⟨rfl, rfl, rfl, rfl, rfl, rfl, rfl, rfl, rfl⟩
  · intro hn
    unfold handleSkip
    rw [hn]

/-- C10 witness: a concrete state with an active credits marker ending at
1200 keeps every framed field and moves only the position and the
marker. -/
theorem handleSkip_frame_witness :
    handleSkip
        { currentTime := 1150
          playbackRate := 2
          playing := true
          activeSkipMarker := some ⟨SkipType.credits, 1140, 1200, MarkerSource.manual⟩
          communitySkipMarkers := []
          manualIntroSkip := 90
          manualCreditsSkip := 60
          skipSettings := manualOnlySettings } =
      { currentTime := 1200
        playbackRate := 2
        playing := true
        activeSkipMarker := none
        communitySkipMarkers := []
        manualIntroSkip := 90
        manualCreditsSkip := 60
        skipSettings := manualOnlySettings } :=
  (handleSkip_frame
    { currentTime := 1150
      playbackRate := 2
      playing := true
      activeSkipMarker := some ⟨SkipType.credits, 1140, 1200, MarkerSource.manual⟩
      communitySkipMarkers := []
      manualIntroSkip := 90
      manualCreditsSkip := 60
      skipSettings := manualOnlySettings }
    ⟨SkipType.credits, 1140, 1200, MarkerSource.manual⟩).1 rfl |>.1

/-! ### C9 -/

lemma updateProgress_flagged (token : Bool) (s : TraktSession) (t d : ℚ)
    (h : s.hasScrobbled80 = true) :
    (updateProgress token s t d).2 = none ∧
      (updateProgress token s t d).1.hasScrobbled80 = true := by
  unfold updateProgress
  by_cases hg : token = false ∨ d = 0
  · rw [if_pos hg]
    exact ⟨rfl, h⟩
  · rw [if_neg hg, if_neg (by rintro ⟨-, hf⟩; rw [h] at hf; cases hf)]
    exact ⟨rfl, h⟩

lemma updateProgress_some_flag (token : Bool) (s : TraktSession) (t d : ℚ)
    (h : (updateProgress token s t d).2.isSome = true) :
    (updateProgress token s t d).1.hasScrobbled80 = true := by
  unfold updateProgress at h ⊢
  by_cases hg : token = false ∨ d = 0
  · rw [if_pos hg] at h
    cases h
  · rw [if_neg hg] at h ⊢
    by_cases hc : 80 ≤ t / d * 100 ∧ s.hasScrobbled80 = false
    · rw [if_pos hc]
    · rw [if_neg hc] at h
      cases h

lemma scrobbleStop_flag (token : Bool) (s : TraktSession) (pr : ℚ) :
    (scrobbleStop token s pr).1.hasScrobbled80 = s.hasScrobbled80 := by
  unfold scrobbleStop
  split <;> rfl

lemma traktStep_flagged (token : Bool) (s : TraktSession) (e : TraktEvent)
    (h : s.hasScrobbled80 = true) :
    (traktStep token s e).2 = 0 ∧ (traktStep token s e).1.hasScrobbled80 = true := by
  cases e with
  | progressSample t d =>
    obtain ⟨h1, h2⟩ := updateProgress_flagged token s t d h
    exact ⟨by simp [traktStep, h1], h2⟩
  | stopCall p =>
    exact ⟨rfl, by rw [show (traktStep token s (TraktEvent.stopCall p)).1 =
      (scrobbleStop token s p).1 from rfl, scrobbleStop_flag]; exact h⟩

lemma runTrakt_flagged (token : Bool) :
    ∀ (events : List TraktEvent) (s : TraktSession), s.hasScrobbled80 = true →
      (runTrakt token s events).2 = 0 ∧
        (runTrakt token s events).1.hasScrobbled80 = true := by
  intro events
  induction events with
  | nil => exact fun s h => ⟨rfl, h⟩
  | cons e rest ih =>
    intro s h
    obtain ⟨h1, h2⟩ := traktStep_flagged token s e h
    obtain ⟨h3, h4⟩ := ih _ h2
    exact ⟨by simp [runTrakt, h1, h3], by simp [runTrakt, h4]⟩

lemma runTrakt_le_one (token : Bool) :
    ∀ (events : List TraktEvent) (s : TraktSession),
      (runTrakt token s events).2 ≤ 1 := by
  intro events
  induction events with
  | nil => intro s; simp [runTrakt]
  | cons e rest ih =>
    intro s
    cases e with
    | stopCall p =>
      have hred : (runTrakt token s (TraktEvent.stopCall p :: rest)).2 =
          0 + (runTrakt token (scrobbleStop token s p).1 rest).2 := rfl
      rw [hred, Nat.zero_add]
      exact ih _
    | progressSample t d =>
      have hred : (runTrakt token s (TraktEvent.progressSample t d :: rest)).2 =
          (if (updateProgress token s t d).2.isSome then 1 else 0) +
            (runTrakt token (updateProgress token s t d).1 rest).2 := rfl
      rw [hred]
      by_cases hs : (updateProgress token s t d).2.isSome = true
      · rw [if_pos hs]
        have hflag := updateProgress_some_flag token s t d hs
        rw [(runTrakt_flagged token rest _ hflag).1]
      · rw [if_neg hs, Nat.zero_add]
        exact ih _

/-- C9: once duration is nonzero and the token is present, the first
progress sample whose percentage reaches 80 emits exactly one
stop-semantics completion scrobble carrying that percentage and latches the
per-session flag; any sample against a latched session emits nothing and
keeps the latch; a stop call never touches the latch; over any event
sequence a latched session emits no further completion report and any
session emits at most one, until resetScrobbleState clears the latch. -/
theorem scrobble_80_one_shot :
    (∀ (s : TraktSession) (t d : ℚ), s.hasScrobbled80 = false → ¬ d = 0 →
      80 ≤ t / d * 100 → t / d * 100 ≤ 100 →
      updateProgress true s t d =
        ({ s with lastProgress := t / d * 100, hasScrobbled80 := true },
          some (t / d * 100))) ∧
    (∀ (token : Bool) (s : TraktSession) (t d : ℚ), s.hasScrobbled80 = true →
      (updateProgress token s t d).2 = none ∧
        (updateProgress token s t d).1.hasScrobbled80 = true) ∧
    (∀ (token : Bool) (s : TraktSession) (pr : ℚ),
      (scrobbleStop token s pr).1.hasScrobbled80 = s.hasScrobbled80) ∧
    (∀ (token : Bool) (s : TraktSession) (events : List TraktEvent),
      s.hasScrobbled80 = true → (runTrakt token s events).2 = 0) ∧
    (∀ (token : Bool) (s : TraktSession) (events : List TraktEvent),
      (runTrakt token s events).2 ≤ 1) ∧
    (∀ s : TraktSession, (resetScrobbleState s).hasScrobbled80 = false) := by
  refine ⟨?_, fun token s t d h => updateProgress_flagged token s t d h,
    scrobbleStop_flag,
    fun token s events h => (runTrakt_flagged token events s h).1,
    fun token s events => runTrakt_le_one token events s,
    fun s => rfl⟩
  intro s t d hf hd hp hle
  unfold updateProgress
  rw [if_neg (fun hcon => Or.elim hcon (fun h => Bool.noConfusion h) hd),
    if_pos ⟨hp, hf⟩]
  have hclamp : clampProgress (t / d * 100) = t / d * 100 := by
    unfold clampProgress
    rw [max_eq_right (le_trans (by norm_num) hp), min_eq_right hle]
  rw [hclamp]

/-- C9 witness: a fresh session sampled at full progress emits the
completion scrobble once, and a sample-stop-sample sequence emits at most
one completion report. -/
theorem scrobble_80_one_shot_witness :
    updateProgress true ⟨0, false, false, false⟩ 100 100 =
      (⟨100 / 100 * 100, false, true, false⟩, some (100 / 100 * 100)) ∧
    (runTrakt true ⟨0, false, false, false⟩
        [TraktEvent.progressSample 100 100, TraktEvent.stopCall 90,
          TraktEvent.progressSample 100 100]).2 ≤ 1 :=
  ⟨scrobble_80_one_shot.1 ⟨0, false, false, false⟩ 100 100 rfl (by decide)
      (by simp; decide) (by simp),
    scrobble_80_one_shot.2.2.2.2.1 true ⟨0, false, false, false⟩
      [TraktEvent.progressSample 100 100, TraktEvent.stopCall 90,
        TraktEvent.progressSample 100 100]⟩

end TVLC
